import Mathlib

/-!
Shallow embedding of `src/runtime/parachains/src/dispute.rs` (the parachain
candidate-dispute module) and proofs about it.

Conventions:
* Rust `usize`/`u32` counters are modelled as `Nat` (the quantities involved
  are validator counts and vote tallies; the arithmetic never approaches the
  machine-word bound on any reachable input).
* Opaque chain types (`Hash`, `ValidatorId`, `SessionIndex`, block numbers)
  are modelled as `Nat`: the module only moves them around, never inspects them.
* Functions of the module that are `unimplemented!` in the source because their
  real implementation lives in another module (the blacklist, the
  session-history lookup) are modelled from the spec and marked as such in
  their doc comments; everything else is translated directly from the source.
-/

namespace Dispute

abbrev Hash := Nat
abbrev ValidatorId := Nat
abbrev ValidatorIndex := Nat
abbrev SessionIndex := Nat
abbrev BlockNumber := Nat

/-- Source `struct DisputeVotes { pro: u32, cons: u32 }`. -/
structure DisputeVotes where
  pro : Nat
  cons : Nat
deriving DecidableEq, Repr

/-- Source `#[derive(Default)]` on `DisputeVotes`: both counters zero. -/
def DisputeVotes.default : DisputeVotes := ⟨0, 0⟩

/-- Source `decl_error!` enum: `Error::Y` and `Error::X`. -/
inductive DisputeError where
  | Y : DisputeError
  | X : DisputeError
deriving DecidableEq, Repr

/-- Source `struct Resolution { hash, was_truely_wrong, to_punish }`
(field names keep the source's spelling). -/
structure Resolution where
  hash : Hash
  was_truely_wrong : Bool
  to_punish : List ValidatorId
deriving DecidableEq, Repr

/-- The module storage declared by `decl_storage!`: the `ValidatorVotes` map,
the `PendingAvailabilityCommitments` map (commitments modelled opaquely as
`Nat`), the `Validators` list and the `CurrentSessionIndex`. -/
structure DisputeStore where
  validatorVotes : List (ValidatorIndex × Bool)
  pendingAvailabilityCommitments : List (Nat × Nat)
  validators : List ValidatorId
  currentSessionIndex : SessionIndex
deriving DecidableEq, Repr

/-- Modelled from the spec: the externally owned state this module mutates
through `extend_blacklist` — the permanent, append-only blacklist of block
hashes (the source defers to "that other module impl"). -/
structure Effects where
  blacklist : List Hash
deriving DecidableEq, Repr

/-- Source `const fn resolution_threshold(n_validators: usize) -> usize`:
`(n * 2) / 3` plus the full remainder `(n * 2) % 3`. -/
def resolution_threshold (n_validators : Nat) : Nat :=
  (n_validators * 2) / 3 + (n_validators * 2) % 3

/-- Modelled from the spec: the smallest integer strictly greater than
`2n/3`, i.e. the standard two-thirds-or-more supermajority threshold the
spec states as the design target.  Used only to compare against the
source's `resolution_threshold`. -/
def spec_supermajority_threshold (n : Nat) : Nat :=
  2 * n / 3 + 1

/-- `spec_supermajority_threshold n` really is the least `t` with `3t > 2n`,
i.e. the least integer strictly above the rational `2n/3`. -/
theorem spec_supermajority_threshold_least (n t : Nat) :
    spec_supermajority_threshold n ≤ t ↔ 2 * n < 3 * t := by
  unfold spec_supermajority_threshold
  omega

/-- Source `fn validators_pro`: stubbed to the empty vector. -/
def validators_pro : List ValidatorId := []

/-- Source `fn validators_cons`: stubbed to the empty vector. -/
def validators_cons : List ValidatorId := []

/-- Source `fn count_pro_and_cons_votes`: stubbed to
`DisputeVotes::default()`, i.e. `(0, 0)` for every block hash. -/
def count_pro_and_cons_votes (_block : Hash) : DisputeVotes :=
  DisputeVotes.default

/-- Source `fn extend_blacklist`: `unimplemented!("Use that other module impl")`.
Modelled from the spec: appends the burnt hashes to the permanent blacklist. -/
def extend_blacklist (burnt : List Hash) (eff : Effects) : Effects :=
  { eff with blacklist := eff.blacklist ++ burnt }

/-- Source `fn transplant_to`: the body is empty, so the call is a no-op on
every state the module owns. -/
def transplant_to (_resolution : Resolution) (_active_heads : List Hash) : Unit :=
  ()

/-- Source `fn initializer_on_new_session`: drains the whole `ValidatorVotes`
map (the `for _ in <ValidatorVotes>::drain() { }` loop consumes every entry);
no other storage item is touched. -/
def initializer_on_new_session (st : DisputeStore) : DisputeStore :=
  { st with validatorVotes := [] }

/-- How one call of `process_concluded` ended: `Ok(())`, `Err(e)`, or the
`unreachable!` panic. -/
inductive ProcResult where
  | ok : ProcResult
  | err : DisputeError → ProcResult
  | panicked : ProcResult
deriving DecidableEq, Repr

/-- Everything observable about one `process_concluded` call: the returned
`Result`, the external effects after the call, and the `Resolution` value the
call constructed (if any). -/
structure ProcOutcome where
  result : ProcResult
  effects : Effects
  resolution : Option Resolution
deriving DecidableEq, Repr

/-- The body of `process_concluded` from the point where the vote counts are
in hand, parameterised by the quantities the source obtains from stubs:
the vote counts, the validator-set size, and the three validator-set
providers (`validators_pro`, `validators_cons` and the session-history lookup
`original_validating_valdiators`, the last modelled from the spec since its
source body is `unimplemented!`).  The branch structure is the source's:

* `(pro, cons) = (pro >= thresh, cons >= thresh)`;
* `if !(pro ^ cons) { return Err(Error::X) }`;
* `else if pro && cons { unreachable!(..) }`;
* `else if !pro && !cons { return Ok(()) }`;
* then the `cons` arm extends the blacklist and punishes `validators_pro`
  with `was_truely_wrong: true`, the `pro` arm punishes `validators_cons`
  with `was_truely_wrong: false`, and the final `else` arm is `Err(Error::Y)`;
* finally `transplant_to` (a no-op) runs, the original validators are looked
  up into an unused binding, and `Ok(())` is returned. -/
def process_concluded_core (votes : DisputeVotes) (n_validators : Nat)
    (block_hash : Hash) (session : SessionIndex)
    (validatorsPro validatorsCons : List ValidatorId)
    (originalValidators : SessionIndex → List ValidatorId)
    (eff : Effects) : ProcOutcome :=
  let thresh := resolution_threshold n_validators
  let pro : Bool := decide (votes.pro ≥ thresh)
  let cons : Bool := decide (votes.cons ≥ thresh)
  if !(xor pro cons) then
    ⟨ProcResult.err DisputeError.X, eff, none⟩
  else if pro && cons then
    ⟨ProcResult.panicked, eff, none⟩
  else if !pro && !cons then
    ⟨ProcResult.ok, eff, none⟩
  else if cons then
    let eff := extend_blacklist [block_hash] eff
    let resolution : Resolution :=
      ⟨block_hash, true, validatorsPro⟩
    let _ := transplant_to resolution []
    let _original_offenders := originalValidators session
    ⟨ProcResult.ok, eff, some resolution⟩
  else if pro then
    let resolution : Resolution :=
      ⟨block_hash, false, validatorsCons⟩
    let _ := transplant_to resolution []
    let _original_offenders := originalValidators session
    ⟨ProcResult.ok, eff, some resolution⟩
  else
    ⟨ProcResult.err DisputeError.Y, eff, none⟩

/-- Source `pub(crate) fn process_concluded(block_number, block_hash, session)`
exactly as written: the validator count is the hard-coded `10`, the vote
counts come from the stubbed `count_pro_and_cons_votes`, and the branch logic
is `process_concluded_core`.  The module storage `st` is threaded through
unchanged because the source body never reads or writes a storage item. -/
def process_concluded (_block_number : BlockNumber) (block_hash : Hash)
    (session : SessionIndex)
    (originalValidators : SessionIndex → List ValidatorId)
    (st : DisputeStore) (eff : Effects) : ProcOutcome × DisputeStore :=
  let all_validators := 10
  ( process_concluded_core (count_pro_and_cons_votes block_hash) all_validators
      block_hash session validators_pro validators_cons originalValidators eff
  , st )

end Dispute

namespace Dispute

/-! ### Claim theorems -/

/-- C1: the spec's design-target threshold (smallest integer strictly greater
than `2n/3`) and the source's `resolution_threshold` disagree.  At `n = 3` the
source yields `2`, which is not even strictly above `2·3/3 = 2`; at `n = 1`
the source yields `2` where the target is `1`; at `n = 10` it yields `8`
where the target is `7`. -/
theorem C1_threshold_formula_deviates :
    resolution_threshold 3 = 2 ∧ spec_supermajority_threshold 3 = 3 ∧
    resolution_threshold 1 = 2 ∧ spec_supermajority_threshold 1 = 1 ∧
    resolution_threshold 10 = 8 ∧ spec_supermajority_threshold 10 = 7 := by
  decide

/-- C3: for `n ≥ 1` and any split with `pro + against ≤ n`, at most one side
can reach `resolution_threshold n`, and indeed `2 · resolution_threshold n > n`. -/
theorem C3_at_most_one_side_reaches_threshold (n pro against : Nat)
    (hn : 1 ≤ n) (hsum : pro + against ≤ n) :
    ¬(resolution_threshold n ≤ pro ∧ resolution_threshold n ≤ against) ∧
    n < 2 * resolution_threshold n := by
  unfold resolution_threshold
  omega

/-- Witness for C3 at `n = 10`, `pro = 7`, `against = 3`. -/
theorem C3_witness :
    (1 ≤ 10 ∧ 7 + 3 ≤ 10) ∧
    (¬(resolution_threshold 10 ≤ 7 ∧ resolution_threshold 10 ≤ 3) ∧
      10 < 2 * resolution_threshold 10) :=
  ⟨⟨by decide, by decide⟩,
   C3_at_most_one_side_reaches_threshold 10 7 3 (by decide) (by decide)⟩

/-- C10: `resolution_threshold` is monotonically non-decreasing. -/
theorem C10_resolution_threshold_monotone (m n : Nat) (h : m ≤ n) :
    resolution_threshold m ≤ resolution_threshold n := by
  unfold resolution_threshold
  omega

/-- Witness for C10 at `m = 4`, `n = 9`. -/
theorem C10_witness :
    4 ≤ 9 ∧ resolution_threshold 4 ≤ resolution_threshold 9 :=
  ⟨by decide, C10_resolution_threshold_monotone 4 9 (by decide)⟩

/-- C7: for every block number, block hash, session, session-history lookup
and initial state, `process_concluded` as written returns `Err(Error::X)` and
leaves the module storage, the external effects and the (absent) resolution
untouched: the stubbed `count_pro_and_cons_votes` yields `(0, 0)`, both
counts fall below `resolution_threshold 10 = 8`, and the `!(pro ^ cons)`
branch returns before anything happens. -/
theorem C7_entry_point_always_errs (block_number : BlockNumber)
    (block_hash : Hash) (session : SessionIndex)
    (originalValidators : SessionIndex → List ValidatorId)
    (st : DisputeStore) (eff : Effects) :
    count_pro_and_cons_votes block_hash = ⟨0, 0⟩ ∧
    resolution_threshold 10 = 8 ∧
    process_concluded block_number block_hash session originalValidators st eff =
      (⟨ProcResult.err DisputeError.X, eff, none⟩, st) :=
  ⟨rfl, rfl, rfl⟩

/-- C2: evaluating the source's branch logic at vote counts `(6, 4)` with
`n = 10` — both sides strictly below the threshold `8` — yields
`Err(Error::X)` and no resolution, not the claimed non-error "no verdict
yet" outcome: `!(pro ^ cons)` is true whenever the two flags agree, so the
`Ok(())` undecided branch is unreachable. -/
theorem C2_undecided_is_an_error :
    (process_concluded_core ⟨6, 4⟩ 10 99 7 [] [] (fun _ => []) ⟨[]⟩).result
      = ProcResult.err DisputeError.X ∧
    (process_concluded_core ⟨6, 4⟩ 10 99 7 [] [] (fun _ => []) ⟨[]⟩).resolution
      = none := by
  decide

/-- C4: with `n = 10` the source threshold is `8` (not the claimed `7`), and
all three scenario inputs `(7, 0)`, `(0, 7)` and `(6, 4)` fall below it on
both sides, so each one hits the `!(pro ^ cons)` branch and returns
`Err(Error::X)` instead of the claimed `Valid`/`Invalid`/`Undecided`. -/
theorem C4_ten_validators_scenario_diverges :
    resolution_threshold 10 = 8 ∧
    (process_concluded_core ⟨7, 0⟩ 10 99 7 [] [] (fun _ => []) ⟨[]⟩).result
      = ProcResult.err DisputeError.X ∧
    (process_concluded_core ⟨0, 7⟩ 10 99 7 [] [] (fun _ => []) ⟨[]⟩).result
      = ProcResult.err DisputeError.X ∧
    (process_concluded_core ⟨6, 4⟩ 10 99 7 [] [] (fun _ => []) ⟨[]⟩).result
      = ProcResult.err DisputeError.X := by
  decide

/-- C5: on an Invalid verdict (here `n = 10`, counts `(0, 8)`, pro-voters
`[1, 2]`, original validators `[5, 6]`) the constructed resolution punishes
only the pro-voters `[1, 2]`; the session-history lookup's result is bound
and dropped, so the punished set is not the claimed union with the original
validator set `[1, 2] ++ [5, 6]`. -/
theorem C5_punished_set_omits_original_validators :
    (process_concluded_core ⟨0, 8⟩ 10 99 7 [1, 2] [3, 4] (fun _ => [5, 6])
        ⟨[]⟩).resolution = some ⟨99, true, [1, 2]⟩ ∧
    ([1, 2] : List ValidatorId) ≠ [1, 2] ++ [5, 6] := by
  decide

/-- C9: whenever both counts reach the threshold, the `!(pro ^ cons)` branch
(true because the two flags agree) returns `Err(Error::X)` at once: no
resolution is constructed, the blacklist is untouched, no side wins. -/
theorem C9_both_sides_at_threshold_abort (votes : DisputeVotes)
    (n_validators : Nat) (block_hash : Hash) (session : SessionIndex)
    (vp vc : List ValidatorId) (ov : SessionIndex → List ValidatorId)
    (eff : Effects)
    (hpro : resolution_threshold n_validators ≤ votes.pro)
    (hcons : resolution_threshold n_validators ≤ votes.cons) :
    process_concluded_core votes n_validators block_hash session vp vc ov eff
      = ⟨ProcResult.err DisputeError.X, eff, none⟩ := by
  have h1 : decide (votes.pro ≥ resolution_threshold n_validators) = true :=
    decide_eq_true hpro
  have h2 : decide (votes.cons ≥ resolution_threshold n_validators) = true :=
    decide_eq_true hcons
  simp [process_concluded_core, h1, h2]

/-- Witness for C9 at `n = 10`, counts `(8, 9)`. -/
theorem C9_witness :
    (resolution_threshold 10 ≤ 8 ∧ resolution_threshold 10 ≤ 9) ∧
    process_concluded_core ⟨8, 9⟩ 10 5 3 [] [] (fun _ => []) ⟨[]⟩
      = ⟨ProcResult.err DisputeError.X, ⟨[]⟩, none⟩ :=
  ⟨⟨by decide, by decide⟩,
   C9_both_sides_at_threshold_abort ⟨8, 9⟩ 10 5 3 [] [] (fun _ => []) ⟨[]⟩
     (by decide) (by decide)⟩

/-- C8 counterexample: a Valid verdict (`n = 10`, counts `(8, 0)`) produces a
resolution yet leaves the blacklist empty — `extend_blacklist` is only called
on the `cons` arm, so not every verdict appends the disputed hash. -/
theorem C8_counterexample_valid_verdict_no_blacklist :
    process_concluded_core ⟨8, 0⟩ 10 99 7 [1, 2] [3, 4] (fun _ => [5, 6]) ⟨[]⟩
      = ⟨ProcResult.ok, ⟨[]⟩, some ⟨99, false, [3, 4]⟩⟩ := by
  decide

/-- C8 (amended): the disputed hash is appended to the blacklist exactly on an
Invalid verdict (against-count at threshold, pro-count below); a Valid
verdict leaves the blacklist unchanged. -/
theorem C8_blacklist_only_on_invalid (votes : DisputeVotes)
    (n_validators : Nat) (block_hash : Hash) (session : SessionIndex)
    (vp vc : List ValidatorId) (ov : SessionIndex → List ValidatorId)
    (eff : Effects) :
    (resolution_threshold n_validators ≤ votes.cons →
      votes.pro < resolution_threshold n_validators →
      (process_concluded_core votes n_validators block_hash session vp vc ov
          eff).effects.blacklist = eff.blacklist ++ [block_hash]) ∧
    (resolution_threshold n_validators ≤ votes.pro →
      votes.cons < resolution_threshold n_validators →
      (process_concluded_core votes n_validators block_hash session vp vc ov
          eff).effects.blacklist = eff.blacklist) := by
  constructor
  · intro hc hp
    have h1 : decide (votes.pro ≥ resolution_threshold n_validators) = false :=
      decide_eq_false (by omega)
    have h2 : decide (votes.cons ≥ resolution_threshold n_validators) = true :=
      decide_eq_true hc
    simp [process_concluded_core, h1, h2, extend_blacklist]
  · intro hp hc
    have h1 : decide (votes.pro ≥ resolution_threshold n_validators) = true :=
      decide_eq_true hp
    have h2 : decide (votes.cons ≥ resolution_threshold n_validators) = false :=
      decide_eq_false (by omega)
    simp [process_concluded_core, h1, h2]

/-- Witness for the amended C8: with an existing blacklist `[11]`, the
Invalid run appends `99` and the Valid run changes nothing. -/
theorem C8_amended_witness :
    (process_concluded_core ⟨0, 8⟩ 10 99 7 [] [] (fun _ => [])
        ⟨[11]⟩).effects.blacklist = [11] ++ [99] ∧
    (process_concluded_core ⟨8, 0⟩ 10 99 7 [] [] (fun _ => [])
        ⟨[11]⟩).effects.blacklist = [11] :=
  ⟨(C8_blacklist_only_on_invalid ⟨0, 8⟩ 10 99 7 [] [] (fun _ => []) ⟨[11]⟩).1
      (by decide) (by decide),
   (C8_blacklist_only_on_invalid ⟨8, 0⟩ 10 99 7 [] [] (fun _ => []) ⟨[11]⟩).2
      (by decide) (by decide)⟩

/-- C6: the session-change handler drains the whole `ValidatorVotes` map for
every starting state — open-dispute entries included — while leaving the
other storage items alone; nothing is retained, contrary to the claimed
retention of still-open disputes' tallies. -/
theorem C6_session_change_drains_all_votes (st : DisputeStore) :
    (initializer_on_new_session st).validatorVotes = [] ∧
    (initializer_on_new_session st).validators = st.validators ∧
    (initializer_on_new_session st).currentSessionIndex
      = st.currentSessionIndex ∧
    (initializer_on_new_session st).pendingAvailabilityCommitments
      = st.pendingAvailabilityCommitments :=
  ⟨rfl, rfl, rfl, rfl⟩

end Dispute
